import Mathlib

/-!
Verification of the restaurant order-management core
(models.py, forms.py, views.py, patterns/singleton/config_manager.py,
patterns/observer/observers.py) as a shallow embedding in Lean 4.

Numeric model. Django `DecimalField` attributes are Python `decimal.Decimal`
values (exact decimal arithmetic), configuration rates are Python `float`s,
and quantities are Python `int`s. Python refuses implicit arithmetic mixing
`Decimal` with `float` (`Decimal * float` and `Decimal + float` raise
`TypeError`), while `int` mixes with both. We model the three runtime
numeric types by a tagged sum `PyNum`; the payload of a `float` is the
rational the literal denotes (no claim settled below depends on the exact
binary value of a float: whenever a `Decimal`-`float` mix occurs the
operation fails before any rounding could matter, and the comparisons used
by the configuration setters are exact at the values involved).
Arithmetic on `PyNum` is `Option`-valued: `none` is a raised `TypeError`.
-/

inductive PyNum where
  | int : ℤ → PyNum
  | dec : ℚ → PyNum
  | flt : ℚ → PyNum
deriving DecidableEq, Repr

/-- The numeric value carried by a `PyNum` (used for order comparisons,
which Python does allow between all three numeric types). -/
def PyNum.val : PyNum → ℚ
  | .int a => (a : ℚ)
  | .dec q => q
  | .flt q => q

/-- Python `+` on the numeric tower: `Decimal + float` (either order) raises
`TypeError`, every other combination succeeds. -/
def pyAdd : PyNum → PyNum → Option PyNum
  | .int a, .int b => some (.int (a + b))
  | .int a, .dec b => some (.dec ((a : ℚ) + b))
  | .dec a, .int b => some (.dec (a + (b : ℚ)))
  | .dec a, .dec b => some (.dec (a + b))
  | .int a, .flt b => some (.flt ((a : ℚ) + b))
  | .flt a, .int b => some (.flt (a + (b : ℚ)))
  | .flt a, .flt b => some (.flt (a + b))
  | .dec _, .flt _ => none
  | .flt _, .dec _ => none

/-- Python `*` on the numeric tower: `Decimal * float` (either order) raises
`TypeError`, every other combination succeeds. -/
def pyMul : PyNum → PyNum → Option PyNum
  | .int a, .int b => some (.int (a * b))
  | .int a, .dec b => some (.dec ((a : ℚ) * b))
  | .dec a, .int b => some (.dec (a * (b : ℚ)))
  | .dec a, .dec b => some (.dec (a * b))
  | .int a, .flt b => some (.flt ((a : ℚ) * b))
  | .flt a, .int b => some (.flt (a * (b : ℚ)))
  | .flt a, .flt b => some (.flt (a * b))
  | .dec _, .flt _ => none
  | .flt _, .dec _ => none

/-- Left-to-right accumulation, the evaluation order of Python `sum`. -/
def pySumDesde : PyNum → List PyNum → Option PyNum
  | acc, [] => some acc
  | acc, x :: xs =>
    match pyAdd acc x with
    | none => none
    | some acc2 => pySumDesde acc2 xs

/-- Python `sum(iterable)`: left fold of `+` starting from the `int` 0. -/
def pySum (l : List PyNum) : Option PyNum := pySumDesde (.int 0) l

/-! ## Data model (restaurant/models.py) -/

/-- `Platillo` (models.py): the fields the claims touch. `precio` is a
`DecimalField`, hence an exact decimal. -/
structure Platillo where
  precio : ℚ
  disponible : Bool
deriving DecidableEq, Repr

/-- `ItemPedido` (models.py): quantity, unit-price snapshot, derived
subtotal, free-text note. `precio_unitario` and `subtotal` are
`DecimalField`s. -/
structure ItemPedido where
  cantidad : ℤ
  precio_unitario : ℚ
  subtotal : ℚ
  notas : String
deriving DecidableEq, Repr

/-- `ItemPedido.save` (models.py lines 134-140): every save recopies the
referenced dish's current price into `precio_unitario` and recomputes
`subtotal = cantidad * precio_unitario` before persisting. The referenced
dish is passed explicitly (`self.platillo` at the time of the save). -/
def ItemPedido.save (item : ItemPedido) (platillo : Platillo) : ItemPedido :=
  { item with
    precio_unitario := platillo.precio
    subtotal := (item.cantidad : ℚ) * platillo.precio }

/-- `Pedido` (models.py): status plus the three persisted monetary fields.
The monetary fields hold whatever Python value was last assigned to them
in memory, hence `PyNum`. -/
structure Pedido where
  estado : String
  subtotal : PyNum
  impuesto : PyNum
  total : PyNum
deriving DecidableEq, Repr

/-- `Pedido.calcular_totales` (models.py lines 96-113), faithful to the
source: `self.subtotal = sum(item.subtotal for item in self.items.all())`
(the items' subtotals come back from the ORM as `Decimal`s, the sum starts
from the `int` 0), `self.impuesto = self.subtotal * config.get_impuesto()`,
`self.total = self.subtotal + self.impuesto`, then `self.save()`. The
current line items and the configured tax rate are passed explicitly.
`none` models an uncaught `TypeError` (no persistence happens). -/
def Pedido.calcular_totales (p : Pedido) (items : List ItemPedido)
    (tasa : PyNum) : Option Pedido :=
  match pySum (items.map fun i => PyNum.dec i.subtotal) with
  | none => none
  | some sub =>
    match pyMul sub tasa with
    | none => none
    | some imp =>
      match pyAdd sub imp with
      | none => none
      | some tot => some { p with subtotal := sub, impuesto := imp, total := tot }

/-- The five recognized order statuses, `Pedido.ESTADOS` (models.py). -/
def ESTADOS : List String :=
  ["pendiente", "en_preparacion", "listo", "entregado", "cancelado"]

/-! ## Observer pattern (restaurant/patterns/observer/observers.py) -/

/-- Event payload handed to listeners by `cambiar_estado` (observers.py):
previous status, new status, acting user. -/
structure Datos where
  estado_anterior : String
  estado_nuevo : String
  usuario : String
deriving DecidableEq, Repr

/-- A registered listener. The concrete observers (`CocinaObserver`,
`MeseroObserver`, `AdministradorObserver`, `NotificacionEmailObserver`)
differ only in side effects (printing, logging); the behaviour visible to
the fan-out loop is whether `actualizar` raises for the delivered event,
so a listener is modelled by an identity plus the set of events on which
its `actualizar` raises. -/
structure Observador where
  oid : ℕ
  eventosQueFallan : List String
deriving DecidableEq, Repr

/-- A listener's `actualizar(pedido, evento, datos)` entry point: succeeds
or raises an exception depending on the event. -/
def Observador.actualizar (o : Observador) (_pedido : Pedido) (evento : String)
    (_datos : Datos) : Except String Unit :=
  if evento ∈ o.eventosQueFallan then Except.error "listener exception"
  else Except.ok ()

/-- One delivery attempt as recorded by the fan-out loop: which listener
was invoked, with which order, event and payload, and whether its
`actualizar` completed without raising. -/
structure Invocacion where
  oid : ℕ
  pedido : Pedido
  evento : String
  datos : Datos
  ok : Bool
deriving DecidableEq, Repr

/-- `PedidoSubject.agregar_observador` (observers.py lines 87-103):
appends the listener to the ordered list unless it is already present. -/
def agregar_observador (l : List Observador) (o : Observador) : List Observador :=
  if o ∈ l then l else l ++ [o]

/-- `PedidoSubject.quitar_observador` (observers.py lines 105-117):
`if observador in self._observadores: self._observadores.remove(observador)`.
Python `list.remove` deletes the first occurrence. -/
def quitar_observador (l : List Observador) (o : Observador) : List Observador :=
  if o ∈ l then l.erase o else l

/-- `PedidoSubject.notificar_observadores` (observers.py lines 119-146):
`for observador in self._observadores: try: observador.actualizar(self.pedido,
evento, datos) except Exception as e: logger.error(...)`. The returned list
is the trace of delivery attempts in loop order; a raised exception is
caught (recorded as `ok := false`) and the loop continues, so the function
is total: no exception reaches the caller. -/
def notificar_observadores : List Observador → Pedido → String → Datos → List Invocacion
  | [], _, _, _ => []
  | o :: resto, p, evento, datos =>
    (match o.actualizar p evento datos with
     | Except.ok _ => ⟨o.oid, p, evento, datos, true⟩
     | Except.error _ => ⟨o.oid, p, evento, datos, false⟩)
      :: notificar_observadores resto p evento datos

/-- `PedidoSubject.cambiar_estado` (observers.py lines 148-176): overwrites
`self.pedido.estado` with the target unconditionally, saves, and notifies
the observers with a `cambio_estado` event. Returns the updated order and
the delivery trace. -/
def PedidoSubject.cambiar_estado (observadores : List Observador) (p : Pedido)
    (nuevo_estado : String) (usuario : String) : Pedido × List Invocacion :=
  let p2 := { p with estado := nuevo_estado }
  let datos : Datos := ⟨p.estado, nuevo_estado, usuario⟩
  (p2, notificar_observadores observadores p2 "cambio_estado" datos)

/-- `cambiar_estado_pedido` view (views.py lines 408-429): the POSTed
target is accepted only if it is a key of `Pedido.ESTADOS`; on acceptance
the subject overwrites and persists the status (no legality check against
the current status), otherwise the order is left untouched and an error is
flashed. The `Bool` is whether the change was applied. -/
def cambiar_estado_pedido (p : Pedido) (nuevo_estado : String)
    (usuario : String) : Pedido × Bool :=
  if nuevo_estado ∈ ESTADOS then
    ((PedidoSubject.cambiar_estado [] p nuevo_estado usuario).1, true)
  else
    (p, false)

/-! ## Singleton configuration (restaurant/patterns/singleton/config_manager.py)

The `_config` dictionary holds strings, numbers and booleans; it is
modelled as an insertion-ordered association list, matching Python `dict`
semantics for the operations used (assignment replaces in place or appends
at the end, `.copy()` is a shallow copy, `.update` overlays left to right).
Object identity — which the Singleton pattern and `get_all_config`'s copy
are about — is modelled by a small heap: a list of dictionaries indexed by
allocation order, so two references alias exactly when they are equal
indices. -/

inductive PyVal where
  | str : String → PyVal
  | num : PyNum → PyVal
  | bool : Bool → PyVal
deriving DecidableEq, Repr

abbrev Config := List (String × PyVal)

/-- Python dict assignment `d[k] = v`: replace the value at the first
matching key keeping its position, or append a new entry at the end. -/
def setKey : Config → String → PyVal → Config
  | [], k, v => [(k, v)]
  | (k2, v2) :: resto, k, v =>
    if k2 = k then (k, v) :: resto else (k2, v2) :: setKey resto k v

/-- Python dict lookup `d[k]` (first matching key). -/
def getKey : Config → String → Option PyVal
  | [], _ => none
  | (k2, v2) :: resto, k => if k2 = k then some v2 else getKey resto k

/-- Python `d.update(otro)`: assign every entry of `otro` in order. -/
def dictUpdate (d : Config) (otro : Config) : Config :=
  otro.foldl (fun acc kv => setKey acc kv.1 kv.2) d

/-- The default configuration written by `RestaurantConfig.__init__`
(config_manager.py lines 62-75). -/
def defaultConfig : Config :=
  [("nombre_restaurante", .str "Restaurante Code & Taste"),
   ("direccion", .str "Av. Universidad #123, Chihuahua, Chih."),
   ("telefono", .str "614-123-4567"),
   ("horario", .str "9:00 AM - 11:00 PM"),
   ("impuesto", .num (.flt (16/100))),
   ("propina_sugerida", .num (.flt (15/100))),
   ("moneda", .str "MXN"),
   ("mesas_activas", .bool true),
   ("tiempo_max_espera", .num (.int 45)),
   ("email", .str "contacto@codeandtaste.com"),
   ("capacidad_maxima", .num (.int 80))]

/-- `RestaurantConfig.set_impuesto` (config_manager.py lines 163-174):
`if 0 <= impuesto <= 1:` store the new rate, `else:` print an error and
leave the dictionary untouched. The comparison is Python's numeric order
comparison, which is defined across the whole numeric tower. -/
def set_impuesto (d : Config) (impuesto : PyNum) : Config :=
  if 0 ≤ impuesto.val ∧ impuesto.val ≤ 1 then
    setKey d "impuesto" (.num impuesto)
  else d

/-- `RestaurantConfig.get_impuesto` (config_manager.py lines 128-130). -/
def get_impuesto (d : Config) : Option PyVal := getKey d "impuesto"

/-- The class-level state of `RestaurantConfig`: `_instance` (a reference
to the single instance, if created), `_initialized`, and the heap of
allocated dictionaries (each live instance's `_config` is a heap cell). -/
structure ClassState where
  inst : Option ℕ
  inicializado : Bool
  heap : List Config
deriving DecidableEq, Repr

/-- `RestaurantConfig.__new__` (config_manager.py lines 38-51): if no
instance exists, allocate a fresh one (a fresh heap cell) and remember it
in `_instance`; otherwise return the existing instance. -/
def restaurantConfigNew (s : ClassState) : ℕ × ClassState :=
  match s.inst with
  | some r => (r, s)
  | none =>
    (s.heap.length, { s with inst := some s.heap.length, heap := s.heap ++ [[]] })

/-- `RestaurantConfig.__init__` (config_manager.py lines 53-80): only when
`_initialized` is still false, write the default configuration, overlay the
optional external JSON file (`_load_from_file`; `archivo = none` models an
absent file), and set `_initialized`. -/
def restaurantConfigInit (archivo : Option Config) (r : ℕ) (s : ClassState) : ClassState :=
  if s.inicializado then s
  else
    let conf :=
      match archivo with
      | none => defaultConfig
      | some f => dictUpdate defaultConfig f
    { s with heap := s.heap.set r conf, inicializado := true }

/-- One acquisition `RestaurantConfig()`: `__new__` then `__init__`. -/
def acquireConfig (archivo : Option Config) (s : ClassState) : ℕ × ClassState :=
  let rs := restaurantConfigNew s
  (rs.1, restaurantConfigInit archivo rs.1 rs.2)

/-- A mutation performed through a reference `r` to a configuration
dictionary: `d[k] = v` on the heap cell `r` aliases. -/
def configSetKeyAt (s : ClassState) (r : ℕ) (k : String) (v : PyVal) : ClassState :=
  { s with heap := s.heap.set r (setKey (s.heap.getD r []) k v) }

/-- `RestaurantConfig.get_all_config` (config_manager.py lines 152-154):
`return self._config.copy()` — allocates a fresh dictionary with the same
entries and returns a reference to it. -/
def get_all_config (s : ClassState) (r : ℕ) : ℕ × ClassState :=
  (s.heap.length, { s with heap := s.heap ++ [s.heap.getD r []] })

/-! ## Line-item quantity validation (restaurant/forms.py) -/

/-- `ItemPedidoForm.clean_cantidad` (forms.py lines 243-248):
`if cantidad and (cantidad < 1 or cantidad > 50): raise ValidationError(...)`.
`cantidad` is the cleaned integer (or `None` when absent); Python truthiness
makes both `None` and `0` skip the range check. `Except.error` models the
raised `ValidationError`. -/
def clean_cantidad (cantidad : Option ℤ) : Except String (Option ℤ) :=
  match cantidad with
  | none => Except.ok none
  | some n =>
    if n ≠ 0 ∧ (n < 1 ∨ n > 50) then
      Except.error "La cantidad debe estar entre 1 y 50"
    else Except.ok (some n)

/-! ## Helper lemmas -/

/-- Looking up a key right after assigning it yields the assigned value. -/
theorem getKey_setKey_self (d : Config) (k : String) (v : PyVal) :
    getKey (setKey d k v) k = some v := by
  induction d with
  | nil => simp [setKey, getKey]
  | cons kv resto ih =>
    obtain ⟨k2, v2⟩ := kv
    by_cases h : k2 = k
    · simp [setKey, getKey, h]
    · simp [setKey, getKey, h, ih]

/-- Writing one heap cell leaves every other cell unchanged. -/
theorem getD_set_of_ne {α : Type} (l : List α) (i j : ℕ) (a x : α) (h : i ≠ j) :
    (l.set i a).getD j x = l.getD j x := by
  induction l generalizing i j with
  | nil => simp
  | cons b resto ih =>
    cases i with
    | zero =>
      cases j with
      | zero => exact absurd rfl h
      | succ j2 => simp
    | succ i2 =>
      cases j with
      | zero => simp
      | succ j2 => simpa using ih i2 j2 (fun hh => h (by rw [hh]))

/-- Reading back a heap cell that was just written yields the new value. -/
theorem getD_set_self {α : Type} (l : List α) (j : ℕ) (a x : α) (h : j < l.length) :
    (l.set j a).getD j x = a := by
  induction l generalizing j with
  | nil => simp at h
  | cons b resto ih =>
    cases j with
    | zero => simp
    | succ j2 => simpa using ih j2 (by simpa using h)

/-- A freshly appended heap cell is read back at index `l.length`. -/
theorem getD_concat_self {α : Type} (l : List α) (a x : α) :
    (l ++ [a]).getD l.length x = a := by
  induction l with
  | nil => rfl
  | cons b resto ih => simp [ih]

/-! ## Claims -/

/-- A line item whose persisted `subtotal` is the `Decimal` 100.00. -/
def itemCien : ItemPedido := ⟨1, 100, 100, ""⟩

/-- Claim C1: the claim says `calcular_totales` sets subtotal to the sum of
the line items' subtotals, tax to subtotal times the configured rate, and
total to subtotal plus tax, giving tax 16.00 and total 116.00 at subtotal
100.00 and rate 0.16. On the code this fails: the configured rate is a
Python `float` (`0.16` in the defaults, or a `float` built by the
configuration view), the order's subtotal is a `Decimal` as soon as the
order has a line item, and `Decimal * float` raises `TypeError`, so for
every order holding the single 100.00 line item the computation raises
instead of producing 16.00 and 116.00, and nothing is persisted. -/
theorem calcular_totales_decimal_float_falla (p : Pedido) :
    p.calcular_totales [itemCien] (PyNum.flt (16/100)) = none := rfl

/-- Claim C2: `calcular_totales` is idempotent: if one invocation succeeds
and returns the order with recomputed totals, invoking it again with the
line items and tax rate unchanged succeeds and returns exactly the same
subtotal, tax and total (the recomputation reads only the line items and
the rate, never the previously stored totals). -/
theorem calcular_totales_idempotente (p p2 : Pedido) (items : List ItemPedido)
    (tasa : PyNum) (h : p.calcular_totales items tasa = some p2) :
    p2.calcular_totales items tasa = some p2 := by
  unfold Pedido.calcular_totales at h
  split at h
  · simp at h
  · rename_i sub hs
    split at h
    · simp at h
    · rename_i imp hm
      split at h
      · simp at h
      · rename_i tot ha
        simp only [Option.some.injEq] at h
        subst h
        unfold Pedido.calcular_totales
        simp only [hs, hm, ha]

/-- An empty order with the default in-memory totals. -/
def pedidoDemo : Pedido := ⟨"pendiente", .int 0, .int 0, .int 0⟩

/-- The order produced by running the totals computation on `pedidoDemo`
with no line items and the default float tax rate. -/
def pedidoDemo1 : Pedido := ⟨"pendiente", .int 0, .flt 0, .flt 0⟩

/-- Witness for C2: a concrete successful invocation, and the theorem
applied to it produces the same result again. -/
theorem calcular_totales_idempotente_witness :
    Pedido.calcular_totales pedidoDemo [] (.flt (16/100)) = some pedidoDemo1 ∧
    Pedido.calcular_totales pedidoDemo1 [] (.flt (16/100)) = some pedidoDemo1 := by
  have h1 : Pedido.calcular_totales pedidoDemo [] (.flt (16/100)) = some pedidoDemo1 := by
    simp [Pedido.calcular_totales, pySum, pySumDesde, pyMul, pyAdd, pedidoDemo, pedidoDemo1]
  exact ⟨h1, calcular_totales_idempotente pedidoDemo pedidoDemo1 [] (.flt (16/100)) h1⟩

/-- A line item as built by the add-item form before its first save. -/
def itemNuevo : ItemPedido := ⟨2, 0, 0, ""⟩

/-- A dish priced at 45.00. -/
def platillo45 : Platillo := ⟨45, true⟩

/-- The same dish after its price was changed to 50.00. -/
def platillo50 : Platillo := ⟨50, true⟩

/-- Counterexample for C3: a line item is created while the dish costs
45.00 (so its unit price snapshot is 45.00); the dish's price is then
changed to 50.00 and the line item is saved again — and its unit price
changes, contradicting the claim that the unit price never changes after
creation even if the item is saved again. -/
theorem precio_unitario_cambia_al_reguardar :
    ((itemNuevo.save platillo45).save platillo50).precio_unitario ≠
      (itemNuevo.save platillo45).precio_unitario := by decide

/-- Claim C3 (amended): `ItemPedido.save` recopies the referenced dish's
current price into `precio_unitario` on every save and recomputes
`subtotal = cantidad * precio_unitario`; so the unit price equals the
dish's price at the moment of the most recent save — it is snapshotted at
addition, but saving the item again after a dish price change updates it
to the new price. -/
theorem item_pedido_save_precio_actual (item : ItemPedido) (pl : Platillo) :
    ((item.save pl).precio_unitario = pl.precio) ∧
    ((item.save pl).subtotal = (item.cantidad : ℚ) * pl.precio) :=
  ⟨rfl, rfl⟩

/-- Claim C8: the claim says a quantity outside [1,50] — explicitly
including 0 — is rejected by the quantity validation before persistence.
On the code, `clean_cantidad` guards the range check with the truthiness
test `if cantidad and (...)`, and the integer 0 is falsy in Python, so a
quantity of 0 skips the range check and is returned as valid (and the
form then persists a line item with quantity 0). This theorem evaluates
the embedded validator at the failing input. -/
theorem clean_cantidad_acepta_cero :
    clean_cantidad (some 0) = Except.ok (some 0) := rfl

/-- Claim C4: for every ordered list of registered listeners and every
event, the fan-out produces exactly one invocation per registered
listener, in registration order, carrying the order, the event and the
payload; a listener whose `actualizar` raises is recorded as a caught
failure (`ok := false`) and delivery continues to every subsequent
listener — and since `notificar_observadores` is a total function
returning the full trace, no exception reaches the caller. -/
theorem notificar_observadores_entrega_completa (obs : List Observador)
    (p : Pedido) (evento : String) (datos : Datos) :
    notificar_observadores obs p evento datos =
      obs.map fun o =>
        ⟨o.oid, p, evento, datos,
          if evento ∈ o.eventosQueFallan then false else true⟩ := by
  induction obs with
  | nil => rfl
  | cons o resto ih =>
    by_cases h : evento ∈ o.eventosQueFallan <;>
      simp [notificar_observadores, Observador.actualizar, h, ih]

/-- Claim C5: the status-change view accepts any of the five recognized
statuses as target, overwriting and persisting the order's status with it
whatever the current status is (no transition legality check, so
terminal-to-non-terminal succeeds), and rejects any target outside the
recognized set, leaving the order untouched. -/
theorem cambiar_estado_pedido_sobrescribe (p : Pedido) (nuevo usuario : String) :
    (nuevo ∈ ESTADOS →
      cambiar_estado_pedido p nuevo usuario = ({ p with estado := nuevo }, true)) ∧
    (nuevo ∉ ESTADOS → cambiar_estado_pedido p nuevo usuario = (p, false)) := by
  constructor <;> intro h <;>
    simp [cambiar_estado_pedido, PedidoSubject.cambiar_estado, h]

/-- An order already in the terminal status `entregado`. -/
def pedidoEntregado : Pedido := ⟨"entregado", .int 0, .int 0, .int 0⟩

/-- Witness for C5: from the terminal status `entregado` the view happily
moves the order back to `pendiente`, and an unrecognized target is
rejected without touching the order. -/
theorem cambiar_estado_pedido_sobrescribe_witness :
    cambiar_estado_pedido pedidoEntregado "pendiente" "admin" =
      ({ pedidoEntregado with estado := "pendiente" }, true) ∧
    cambiar_estado_pedido pedidoEntregado "volando" "admin" = (pedidoEntregado, false) :=
  ⟨(cambiar_estado_pedido_sobrescribe pedidoEntregado "pendiente" "admin").1 (by decide),
   (cambiar_estado_pedido_sobrescribe pedidoEntregado "volando" "admin").2 (by decide)⟩

/-- Claim C6: `set_impuesto` stores a rate inside [0,1] and rejects any
rate outside [0,1] without mutating the configuration at all (so the
previously stored tax rate is untouched). -/
theorem set_impuesto_valida_rango (d : Config) (v : PyNum) :
    (¬ (0 ≤ v.val ∧ v.val ≤ 1) → set_impuesto d v = d) ∧
    ((0 ≤ v.val ∧ v.val ≤ 1) →
      getKey (set_impuesto d v) "impuesto" = some (.num v)) := by
  constructor
  · intro h
    unfold set_impuesto
    rw [if_neg h]
  · intro h
    unfold set_impuesto
    rw [if_pos h]
    exact getKey_setKey_self d "impuesto" (.num v)

/-- Witness for C6: `set_impuesto(1.5)` on the default configuration is
rejected and the whole configuration (hence the prior tax rate 0.16) is
unchanged; `set_impuesto(0.5)` stores 0.5. -/
theorem set_impuesto_valida_rango_witness :
    set_impuesto defaultConfig (.flt (3/2)) = defaultConfig ∧
    getKey (set_impuesto defaultConfig (.flt (1/2))) "impuesto" =
      some (.num (.flt (1/2))) :=
  ⟨(set_impuesto_valida_rango defaultConfig (.flt (3/2))).1
     (by norm_num [PyNum.val]),
   (set_impuesto_valida_rango defaultConfig (.flt (1/2))).2
     (by norm_num [PyNum.val])⟩

/-- After any acquisition, the class state records the returned reference
as the single instance, is marked initialized, and the reference is a
valid heap cell. -/
theorem acquireConfig_post (archivo : Option Config) (s : ClassState)
    (hwf : ∀ r, s.inst = some r → r < s.heap.length) :
    (acquireConfig archivo s).2.inst = some (acquireConfig archivo s).1 ∧
    (acquireConfig archivo s).2.inicializado = true ∧
    (acquireConfig archivo s).1 < (acquireConfig archivo s).2.heap.length := by
  cases hinst : s.inst with
  | some r =>
    have hr := hwf r hinst
    by_cases hini : s.inicializado <;>
      simp [acquireConfig, restaurantConfigNew, hinst, restaurantConfigInit, hini, hr]
  | none =>
    by_cases hini : s.inicializado <;>
      simp [acquireConfig, restaurantConfigNew, hinst, restaurantConfigInit, hini]

/-- Acquiring on a state that already has an initialized instance returns
that instance and changes nothing. -/
theorem acquireConfig_fix (archivo : Option Config) (st : ClassState) (r : ℕ)
    (hi : st.inst = some r) (hini : st.inicializado = true) :
    acquireConfig archivo st = (r, st) := by
  simp [acquireConfig, restaurantConfigNew, hi, restaurantConfigInit, hini]

/-- Claim C7: two acquisitions of `RestaurantConfig()` in one process
return the same reference; the second acquisition does not change the
class state at all (no reinitialization of stored values); and a mutation
performed through the first reference is read back through the second
reference. The hypothesis says only that a previously recorded instance
reference, if any, is a valid heap cell. -/
theorem restaurant_config_singleton (archivo : Option Config) (s : ClassState)
    (hwf : ∀ r, s.inst = some r → r < s.heap.length) :
    (acquireConfig archivo (acquireConfig archivo s).2).1 = (acquireConfig archivo s).1 ∧
    (acquireConfig archivo (acquireConfig archivo s).2).2 = (acquireConfig archivo s).2 ∧
    ∀ k v,
      getKey
        ((configSetKeyAt (acquireConfig archivo s).2 (acquireConfig archivo s).1 k
            v).heap.getD (acquireConfig archivo (acquireConfig archivo s).2).1 []) k =
        some v := by
  obtain ⟨hi, hini, hlt⟩ := acquireConfig_post archivo s hwf
  have hfix := acquireConfig_fix archivo (acquireConfig archivo s).2
    (acquireConfig archivo s).1 hi hini
  refine ⟨by rw [hfix], by rw [hfix], ?_⟩
  intro k v
  rw [hfix]
  unfold configSetKeyAt
  rw [getD_set_self _ _ _ _ hlt]
  exact getKey_setKey_self _ k v

/-- The pristine class state of a fresh process: no instance created yet. -/
def estadoClaseVacio : ClassState := ⟨none, false, []⟩

/-- Witness for C7: in a fresh process with no external configuration
file, two acquisitions return the same reference, and writing the key
`impuesto` through the first is visible through the second. -/
theorem restaurant_config_singleton_witness :
    ((acquireConfig none (acquireConfig none estadoClaseVacio).2).1 =
      (acquireConfig none estadoClaseVacio).1) ∧
    getKey
      ((configSetKeyAt (acquireConfig none estadoClaseVacio).2
          (acquireConfig none estadoClaseVacio).1 "impuesto"
          (.num (.flt (1/5)))).heap.getD
        (acquireConfig none (acquireConfig none estadoClaseVacio).2).1 [])
      "impuesto" = some (.num (.flt (1/5))) :=
  ⟨(restaurant_config_singleton none estadoClaseVacio
      (by intro r h; simp [estadoClaseVacio] at h)).1,
   (restaurant_config_singleton none estadoClaseVacio
      (by intro r h; simp [estadoClaseVacio] at h)).2.2 "impuesto" (.num (.flt (1/5)))⟩

/-- Claim C9: `get_all_config` allocates and returns a fresh dictionary:
the returned reference is distinct from the holder's internal one, the
returned dictionary has exactly the stored entries (so every stored
key/value pair appears in it), and mutating the returned dictionary leaves
the holder's stored dictionary unchanged. -/
theorem get_all_config_copia (s : ClassState) (r : ℕ) (hr : r < s.heap.length) :
    ((get_all_config s r).1 ≠ r) ∧
    ((get_all_config s r).2.heap.getD (get_all_config s r).1 [] = s.heap.getD r []) ∧
    ∀ k v,
      (configSetKeyAt (get_all_config s r).2 (get_all_config s r).1 k v).heap.getD r [] =
        (get_all_config s r).2.heap.getD r [] := by
  refine ⟨?_, ?_, ?_⟩
  · simp only [get_all_config]
    omega
  · simp [get_all_config, getD_concat_self]
  · intro k v
    simp only [get_all_config, configSetKeyAt]
    exact getD_set_of_ne _ _ _ _ _ (by omega)

/-- A process state whose single configuration instance holds the default
configuration. -/
def estadoClaseDemo : ClassState := ⟨some 0, true, [defaultConfig]⟩

/-- Witness for C9: copying the default configuration yields a fresh
reference with equal contents, and writing `moneda` into the copy leaves
the stored dictionary untouched. -/
theorem get_all_config_copia_witness :
    ((get_all_config estadoClaseDemo 0).1 ≠ 0) ∧
    ((get_all_config estadoClaseDemo 0).2.heap.getD (get_all_config estadoClaseDemo 0).1 [] =
      estadoClaseDemo.heap.getD 0 []) ∧
    (configSetKeyAt (get_all_config estadoClaseDemo 0).2 (get_all_config estadoClaseDemo 0).1
        "moneda" (.str "USD")).heap.getD 0 [] =
      (get_all_config estadoClaseDemo 0).2.heap.getD 0 [] :=
  ⟨(get_all_config_copia estadoClaseDemo 0 (by decide)).1,
   (get_all_config_copia estadoClaseDemo 0 (by decide)).2.1,
   (get_all_config_copia estadoClaseDemo 0 (by decide)).2.2 "moneda" (.str "USD")⟩

/-- Claim C10: removing a listener that is not registered is a safe no-op
(the function is total, so no exception, and the list is returned
unchanged); removing a registered listener removes exactly its first
occurrence — the only occurrence for lists built by `agregar_observador` —
and every other entry keeps its relative order. -/
theorem quitar_observador_seguro (l : List Observador) (o : Observador) :
    (o ∉ l → quitar_observador l o = l) ∧
    (o ∈ l → ∃ l1 l2, l = l1 ++ o :: l2 ∧ o ∉ l1 ∧
      quitar_observador l o = l1 ++ l2) := by
  constructor
  · intro h
    simp [quitar_observador, h]
  · intro h
    obtain ⟨l1, l2, hno, heq, herase⟩ := List.exists_erase_eq h
    exact ⟨l1, l2, heq, hno, by simpa [quitar_observador, h] using herase⟩

/-- A listener registered for kitchen notifications. -/
def obsUno : Observador := ⟨1, []⟩

/-- A listener whose handler raises on status-change events. -/
def obsDos : Observador := ⟨2, ["cambio_estado"]⟩

/-- A supervisory listener. -/
def obsTres : Observador := ⟨3, []⟩

/-- Witness for C10: removing the unregistered `obsDos` from a two-element
list changes nothing, and removing the registered `obsDos` from a
three-element list removes exactly that entry keeping the others in
order. -/
theorem quitar_observador_seguro_witness :
    quitar_observador [obsUno, obsTres] obsDos = [obsUno, obsTres] ∧
    ∃ l1 l2, [obsUno, obsDos, obsTres] = l1 ++ obsDos :: l2 ∧ obsDos ∉ l1 ∧
      quitar_observador [obsUno, obsDos, obsTres] obsDos = l1 ++ l2 :=
  ⟨(quitar_observador_seguro [obsUno, obsTres] obsDos).1 (by decide),
   (quitar_observador_seguro [obsUno, obsDos, obsTres] obsDos).2 (by decide)⟩
